import Mathlib

/-!
Verification development for the texture residency cache of cocos2d-x
(`cocos2dx/textures/CCTextureCache.h`): the keyed cache store with
reference-count-aware eviction, the asynchronous load pipeline, the
volatile-texture shadow registry, and the singleton access points.

The repository ships only the class interface (`CCTextureCache.h`); the
behavioural definitions below are therefore modelled from the design
specification, except where the header itself carries the body (the
deprecated aliases `sharedTextureCache` / `purgeSharedTextureCache`).

Resources (Texture2D), decoded images, callbacks and parameter sets are
identified by natural numbers: equality of identifiers is object identity.
The external Decoder is a parameter `dec : String → Option Nat` and decode
work is counted in `decodeCount`, so "no second decode" is observable.
-/

namespace TextureCacheSpec

/-- Association-list lookup for string keys (models `Dictionary::objectForKey`). -/
def lookupKey (l : List (String × Nat)) (k : String) : Option Nat :=
  match l with
  | [] => none
  | e :: rest => if e.1 = k then some e.2 else lookupKey rest k

/-- Association-list lookup for natural-number keys. -/
def lookupNat (l : List (Nat × Nat)) (k : Nat) : Option Nat :=
  match l with
  | [] => none
  | e :: rest => if e.1 = k then some e.2 else lookupNat rest k

/-- Association-list update (replace the first binding, or append a new one). -/
def setNat (l : List (Nat × Nat)) (k v : Nat) : List (Nat × Nat) :=
  match l with
  | [] => [(k, v)]
  | e :: rest => if e.1 = k then (k, v) :: rest else e :: setNat rest k v

/-- Modelled from the spec: one pending async decode request
(`TextureCache::AsyncStruct`): filename plus callback identity. -/
structure AsyncStruct where
  filename : String
  callback : Nat
deriving DecidableEq, Repr

/-- Modelled from the spec: a decoded result travelling back to the owning
thread (`TextureCache::ImageInfo`); `image = none` is the failure sentinel. -/
structure ImageInfo where
  asyncStruct : AsyncStruct
  image : Option Nat
deriving DecidableEq, Repr

/-- Modelled from the spec: the observable state of one `TextureCache`
instance.  `textures` is the keyed store (key, resource id); `retain` maps a
resource id to its total retain count (the cache's own reference included);
`callbackLog` records every callback invocation `(callback, resource?)` in
order; `decodeCount` counts invocations of the external Decoder. -/
structure CacheState where
  textures : List (String × Nat)
  retain : List (Nat × Nat)
  nextId : Nat
  asyncStructQueue : List AsyncStruct
  imageInfoQueue : List ImageInfo
  needQuit : Bool
  threadRunning : Bool
  asyncRefCount : Nat
  decodeCount : Nat
  callbackLog : List (Nat × Option Nat)
deriving DecidableEq, Repr

/-- Total retain count of a resource (0 when unknown/destroyed). -/
def retainOf (s : CacheState) (r : Nat) : Nat :=
  (lookupNat s.retain r).getD 0

/-- Modelled from the spec: `textureForKey` — pure lookup, no side effects. -/
def textureForKey (s : CacheState) (k : String) : Option Nat :=
  lookupKey s.textures k

/-- Modelled from the spec: `addImage` (synchronous, missing
`CCTextureCache.cpp`).  Returns the cached resource if the key is present
(no decode); otherwise invokes the Decoder once: on success creates a fresh
resource (retain count 1, held by the cache) and caches it under the key;
on failure returns no resource and caches nothing. -/
def addImage (dec : String → Option Nat) (k : String) (s : CacheState) :
    Option Nat × CacheState :=
  match lookupKey s.textures k with
  | some r => (some r, s)
  | none =>
    match dec k with
    | some _ =>
      (some s.nextId,
        { s with
          textures := s.textures ++ [(k, s.nextId)]
          retain := setNat s.retain s.nextId 1
          nextId := s.nextId + 1
          decodeCount := s.decodeCount + 1 })
    | none => (none, { s with decodeCount := s.decodeCount + 1 })

/-- Modelled from the spec: `addImageAsync` enqueue (missing
`CCTextureCache.cpp`).  Fast path: a cached key invokes the callback
immediately with the cached resource and spawns no decode work.  Slow path:
appends an `AsyncStruct` to the pending-request queue, bumps the in-flight
counter and lazily starts the worker. -/
def addImageAsync (k : String) (cb : Nat) (s : CacheState) : CacheState :=
  match lookupKey s.textures k with
  | some r => { s with callbackLog := s.callbackLog ++ [(cb, some r)] }
  | none =>
    { s with
      asyncStructQueue := s.asyncStructQueue ++ [⟨k, cb⟩]
      asyncRefCount := s.asyncRefCount + 1
      threadRunning := true }

/-- Modelled from the spec: one iteration of the worker loop
(`TextureCache::loadImage`, missing `CCTextureCache.cpp`): dequeue one
request FIFO, invoke the Decoder, append the decoded result (or the failure
sentinel) to the result queue.  The worker never touches the store. -/
def loadImageStep (dec : String → Option Nat) (s : CacheState) : CacheState :=
  match s.asyncStructQueue with
  | [] => s
  | a :: rest =>
    { s with
      asyncStructQueue := rest
      imageInfoQueue := s.imageInfoQueue ++ [⟨a, dec a.filename⟩]
      decodeCount := s.decodeCount + 1 }

/-- Dispatch of a single decoded result on the owning thread: failure
sentinel → callback with null; success → first-writer-wins at the store
(an already-present key keeps its resource and the decoded data is
discarded), else a fresh resource is created and cached; the callback
receives the final resource. -/
def dispatchOne (info : ImageInfo) (s : CacheState) : CacheState :=
  match info.image with
  | none =>
    { s with
      callbackLog := s.callbackLog ++ [(info.asyncStruct.callback, none)]
      asyncRefCount := s.asyncRefCount - 1 }
  | some _ =>
    match lookupKey s.textures info.asyncStruct.filename with
    | some r =>
      { s with
        callbackLog := s.callbackLog ++ [(info.asyncStruct.callback, some r)]
        asyncRefCount := s.asyncRefCount - 1 }
    | none =>
      { s with
        textures := s.textures ++ [(info.asyncStruct.filename, s.nextId)]
        retain := setNat s.retain s.nextId 1
        nextId := s.nextId + 1
        callbackLog := s.callbackLog ++ [(info.asyncStruct.callback, some s.nextId)]
        asyncRefCount := s.asyncRefCount - 1 }

/-- Drains a list of decoded results in FIFO order. -/
def pumpGo : List ImageInfo → CacheState → CacheState
  | [], s => s
  | i :: rest, s => pumpGo rest (dispatchOne i s)

/-- Modelled from the spec: the per-frame pump
(`TextureCache::addImageAsyncCallBack`, missing `CCTextureCache.cpp`):
drains the entire result queue without blocking. -/
def addImageAsyncCallBack (s : CacheState) : CacheState :=
  pumpGo s.imageInfoQueue { s with imageInfoQueue := [] }

/-- Release one strong reference of a resource (truncated decrement of its
retain count). -/
def releaseRes (ret : List (Nat × Nat)) (r : Nat) : List (Nat × Nat) :=
  setNat ret r ((lookupNat ret r).getD 0 - 1)

/-- Release one strong reference per resource id in the list. -/
def releaseAll (ret : List (Nat × Nat)) : List Nat → List (Nat × Nat)
  | [] => ret
  | r :: rest => releaseAll (releaseRes ret r) rest

/-- Modelled from the spec: `removeAllTextures` (missing
`CCTextureCache.cpp`): unconditionally releases the store's own reference on
every entry and empties the store; external references are not touched. -/
def removeAllTextures (s : CacheState) : CacheState :=
  { s with
    textures := []
    retain := releaseAll s.retain (s.textures.map (·.2)) }

/-- Modelled from the spec: `removeUnusedTextures` (missing
`CCTextureCache.cpp`): removes and releases exactly the entries whose
resource has a retain count of 1 — the cache is the sole owner — judged at
the time of the call. -/
def removeUnusedTextures (s : CacheState) : CacheState :=
  { s with
    textures := s.textures.filter (fun e => decide (retainOf s e.2 ≠ 1))
    retain :=
      releaseAll s.retain
        ((s.textures.filter (fun e => decide (retainOf s e.2 = 1))).map (·.2)) }

/-- Decodes a whole pending-request queue in FIFO order (the worker loop run
to exhaustion: it exits only once the shutdown flag is set and the queue is
empty). -/
def decodeAll (dec : String → Option Nat) : List AsyncStruct → List ImageInfo
  | [] => []
  | a :: rest => ⟨a, dec a.filename⟩ :: decodeAll dec rest

/-- Worker run to exhaustion of the pending-request queue. -/
def workerDrain (dec : String → Option Nat) (s : CacheState) : CacheState :=
  { s with
    asyncStructQueue := []
    imageInfoQueue := s.imageInfoQueue ++ decodeAll dec s.asyncStructQueue
    decodeCount := s.decodeCount + s.asyncStructQueue.length }

/-- Shutdown drain of residual results: every callback is invoked once with
a null resource, none is dropped. -/
def shutdownDrainGo : List ImageInfo → CacheState → CacheState
  | [], s => s
  | i :: rest, s =>
    shutdownDrainGo rest
      { s with
        callbackLog := s.callbackLog ++ [(i.asyncStruct.callback, none)]
        asyncRefCount := s.asyncRefCount - 1 }

/-- Modelled from the spec: teardown (`TextureCache::~TextureCache` with
`_needQuit`, missing `CCTextureCache.cpp`): set the shutdown flag, signal
the worker, join it (the worker loop exits once the flag is set and the
pending-request queue is empty), then drain residual result-queue entries by
invoking their callbacks with a null result. -/
def shutdown (dec : String → Option Nat) (s : CacheState) : CacheState :=
  let s1 := workerDrain dec { s with needQuit := true }
  let s2 := shutdownDrainGo s1.imageInfoQueue { s1 with imageInfoQueue := [] }
  { s2 with threadRunning := false }

/-- Modelled from the spec: the process-wide singleton slot
(`TextureCache::_sharedTextureCache`, missing `CCTextureCache.cpp`).  A live
instance is an identity paired with its cache contents; `nextInst` generates
fresh identities. -/
structure SingletonState where
  shared : Option (Nat × CacheState)
  nextInst : Nat
deriving DecidableEq, Repr

/-- The state of a freshly constructed `TextureCache`. -/
def emptyCache : CacheState :=
  { textures := []
    retain := []
    nextId := 0
    asyncStructQueue := []
    imageInfoQueue := []
    needQuit := false
    threadRunning := false
    asyncRefCount := 0
    decodeCount := 0
    callbackLog := [] }

/-- Modelled from the spec: `TextureCache::getInstance` (missing
`CCTextureCache.cpp`): returns the stored instance, allocating a fresh one
with an empty cache when the slot is empty. -/
def getInstance (g : SingletonState) : (Nat × CacheState) × SingletonState :=
  match g.shared with
  | some i => (i, g)
  | none =>
    ((g.nextInst, emptyCache),
      { shared := some (g.nextInst, emptyCache), nextInst := g.nextInst + 1 })

/-- Modelled from the spec: `TextureCache::destroyInstance` (missing
`CCTextureCache.cpp`): releases the retained instance and empties the slot. -/
def destroyInstance (g : SingletonState) : SingletonState :=
  { shared := none, nextInst := g.nextInst }

/-- From the header, which carries the inline body: the deprecated
`sharedTextureCache` simply returns `TextureCache::getInstance()`. -/
def sharedTextureCache (g : SingletonState) : (Nat × CacheState) × SingletonState :=
  getInstance g

/-- From the header, which carries the inline body: the deprecated
`purgeSharedTextureCache` simply calls `TextureCache::destroyInstance()`. -/
def purgeSharedTextureCache (g : SingletonState) : SingletonState :=
  destroyInstance g

/-- Modelled from the spec: the source descriptor kinds of a shadow record
(`VolatileTexture::ccCachedImageType` with the per-kind fields). -/
inductive VTSource
  | invalid
  | imageFile (fileName : String) (fmtImage : Nat)
  | imageData (textureData : Nat) (pixelFormat : Nat) (width height : Nat)
  | string (text : String) (fontDefinition : Nat)
  | image (uiImage : Nat)
deriving DecidableEq, Repr

/-- Modelled from the spec: one shadow record (`VolatileTexture`): the
tracked texture identity, reconstruction metadata, and the last-known
texture parameters when any were recorded. -/
structure VTRecord where
  texture : Nat
  source : VTSource
  texParams : Option Nat
deriving DecidableEq, Repr

/-- Modelled from the spec: the global state the shadow registry acts on:
the record list (`VolatileTexture::_textures`), the GPU-side storage
(texture id → uploaded pixel content), the parameters currently applied on
the GPU object, and the re-entrancy guard (`VolatileTexture::_isReloading`). -/
structure VTState where
  textures : List VTRecord
  gpu : List (Nat × Nat)
  appliedParams : List (Nat × Nat)
  isReloading : Bool
deriving DecidableEq, Repr

/-- A freshly created shadow record: no source yet, no recorded parameters. -/
def newVTRecord (tt : Nat) : VTRecord :=
  { texture := tt, source := .invalid, texParams := none }

/-- Whether the registry holds a record for the texture identity. -/
def hasRecord (l : List VTRecord) (tt : Nat) : Bool :=
  l.any (fun r => r.texture == tt)

/-- From the header comment on `VolatileTexture::findVolotileTexture`:
find the record by `Texture2D*`; if not found, create a new one (body
missing from `CCTextureCache.cpp`, modelled from the spec). -/
def findVolotileTexture (tt : Nat) (l : List VTRecord) : List VTRecord :=
  if hasRecord l tt then l else l ++ [newVTRecord tt]

/-- Rewrites the record of a given texture identity in place. -/
def updateRecord (tt : Nat) (f : VTRecord → VTRecord) (l : List VTRecord) :
    List VTRecord :=
  l.map (fun r => if r.texture == tt then f r else r)

/-- Modelled from the spec: the shared shape of every tracking entry point:
find-or-create the record for the texture, then overwrite its fields. -/
def trackOp (tt : Nat) (f : VTRecord → VTRecord) (l : List VTRecord) :
    List VTRecord :=
  updateRecord tt f (findVolotileTexture tt l)

/-- Modelled from the spec: `VolatileTexture::addImageTexture` (missing
`CCTextureCache.cpp`): record a file-backed source. -/
def addImageTexture (tt : Nat) (fileName : String) (fmt : Nat)
    (l : List VTRecord) : List VTRecord :=
  trackOp tt (fun r => { r with source := .imageFile fileName fmt }) l

/-- Modelled from the spec: `VolatileTexture::addStringTexture` (missing
`CCTextureCache.cpp`): record a rendered-text source. -/
def addStringTexture (tt : Nat) (text : String) (fontDefinition : Nat)
    (l : List VTRecord) : List VTRecord :=
  trackOp tt (fun r => { r with source := .string text fontDefinition }) l

/-- Modelled from the spec: `VolatileTexture::addDataTexture` (missing
`CCTextureCache.cpp`): record a raw-buffer source. -/
def addDataTexture (tt : Nat) (data pixelFormat width height : Nat)
    (l : List VTRecord) : List VTRecord :=
  trackOp tt (fun r => { r with source := .imageData data pixelFormat width height }) l

/-- Modelled from the spec: `VolatileTexture::addImage` (missing
`CCTextureCache.cpp`): record an already-decoded-image source. -/
def addImageVT (tt : Nat) (uiImage : Nat) (l : List VTRecord) : List VTRecord :=
  trackOp tt (fun r => { r with source := .image uiImage }) l

/-- Modelled from the spec: `VolatileTexture::setTexParameters` (missing
`CCTextureCache.cpp`): record the last-applied parameters, overriding any
prior record for the same texture. -/
def setTexParametersVT (tt : Nat) (p : Nat) (l : List VTRecord) : List VTRecord :=
  trackOp tt (fun r => { r with texParams := some p }) l

/-- Modelled from the spec: re-derivation of pixel data from a source
descriptor; the external Decoder `dec` may fail (missing source file), text
rendering `render` and stored buffers/images always regenerate. -/
def regenerate (dec : String → Option Nat) (render : String → Nat → Nat) :
    VTSource → Option Nat
  | .invalid => none
  | .imageFile fn _ => dec fn
  | .imageData d _ _ _ => some d
  | .string t f => some (render t f)
  | .image img => some img

/-- Reload of a single shadow record: a record that cannot regenerate is
skipped; otherwise the regenerated pixels are uploaded into the same texture
identity and the last-known parameters are reapplied. -/
def reloadOne (dec : String → Option Nat) (render : String → Nat → Nat)
    (r : VTRecord) (s : VTState) : VTState :=
  match regenerate dec render r.source, r.texParams with
  | none, _ => s
  | some px, none => { s with gpu := setNat s.gpu r.texture px }
  | some px, some p =>
    { s with
      gpu := setNat s.gpu r.texture px
      appliedParams := setNat s.appliedParams r.texture p }

/-- Reload of a list of shadow records, in order. -/
def reloadGo (dec : String → Option Nat) (render : String → Nat → Nat) :
    List VTRecord → VTState → VTState
  | [], s => s
  | r :: rest, s => reloadGo dec render rest (reloadOne dec render r s)

/-- Modelled from the spec: `VolatileTexture::reloadAllTextures` (missing
`CCTextureCache.cpp`): guarded against re-entry by `_isReloading`, processes
every tracked record; record identities are never recreated. -/
def reloadAllTextures (dec : String → Option Nat) (render : String → Nat → Nat)
    (s : VTState) : VTState :=
  if s.isReloading then s
  else
    let s1 := reloadGo dec render s.textures { s with isReloading := true }
    { s1 with isReloading := false }

/-! ### Helper lemmas about association lists and reference counts -/

theorem lookupKey_append_self (l : List (String × Nat)) (k : String) (v : Nat)
    (h : lookupKey l k = none) : lookupKey (l ++ [(k, v)]) k = some v := by
  induction l with
  | nil => simp [lookupKey]
  | cons e rest ih =>
    by_cases he : e.1 = k
    · simp [lookupKey, he] at h
    · simp only [lookupKey, he, if_false, List.cons_append] at h ⊢
      exact ih h

theorem lookupNat_setNat (l : List (Nat × Nat)) (k v x : Nat) :
    lookupNat (setNat l k v) x = if x = k then some v else lookupNat l x := by
  induction l with
  | nil =>
    by_cases h : x = k
    · subst h; simp [setNat, lookupNat]
    · have h2 : ¬ k = x := fun hh => h hh.symm
      simp [setNat, lookupNat, h, h2]
  | cons e rest ih =>
    by_cases he : e.1 = k
    · by_cases hx : x = k
      · subst hx; simp [setNat, lookupNat, he]
      · have h2 : ¬ k = x := fun hh => hx hh.symm
        have h3 : ¬ e.1 = x := fun hh => hx (hh.symm.trans he)
        simp [setNat, lookupNat, he, hx, h2, h3]
    · by_cases hx : e.1 = x
      · have h2 : ¬ x = k := fun hh => he (hx.trans hh)
        simp [setNat, lookupNat, he, hx, h2]
      · simp [setNat, lookupNat, he, hx, ih]

/-- Retain count read directly off a retain map. -/
def retainCnt (ret : List (Nat × Nat)) (r : Nat) : Nat :=
  (lookupNat ret r).getD 0

theorem retainCnt_releaseRes (ret : List (Nat × Nat)) (r x : Nat) :
    retainCnt (releaseRes ret r) x =
      if x = r then retainCnt ret r - 1 else retainCnt ret x := by
  by_cases h : x = r <;>
    simp [retainCnt, releaseRes, lookupNat_setNat, h]

theorem retainCnt_releaseAll (L : List Nat) (ret : List (Nat × Nat)) (x : Nat) :
    retainCnt (releaseAll ret L) x = retainCnt ret x - L.count x := by
  induction L generalizing ret with
  | nil => simp [releaseAll]
  | cons r rest ih =>
    by_cases h : x = r
    · subst h
      rw [releaseAll, ih, retainCnt_releaseRes, if_pos rfl, List.count_cons_self]
      omega
    · rw [releaseAll, ih, retainCnt_releaseRes, if_neg h, List.count_cons_of_ne h]

theorem retainOf_eq_retainCnt (s : CacheState) (r : Nat) :
    retainOf s r = retainCnt s.retain r := rfl

/-! ### C1 — synchronous `addImage` is idempotent per key -/

/-- C1: once `addImage dec k` has succeeded with resource `r` and state
`s1`, calling `addImage dec k` again returns the identical resource `r` and
leaves the state (in particular the decode counter) unchanged, and `r` is
exactly what the cache stores under `k`. -/
theorem addImage_repeat_identical (dec : String → Option Nat) (k : String)
    (s s1 : CacheState) (r : Nat) (h : addImage dec k s = (some r, s1)) :
    addImage dec k s1 = (some r, s1) ∧ textureForKey s1 k = some r ∧
      (addImage dec k s1).2.decodeCount = s1.decodeCount := by
  have hmain : addImage dec k s1 = (some r, s1) ∧ textureForKey s1 k = some r := by
    unfold addImage at h
    split at h
    · rename_i r0 hl
      injection h with h1 h2
      injection h1 with h1
      subst h1
      subst h2
      refine ⟨?_, hl⟩
      unfold addImage
      split
      · rename_i r1 hl1
        rw [hl] at hl1
        injection hl1 with hl1
        rw [hl1]
      · rename_i hl1
        rw [hl] at hl1
        exact Option.noConfusion hl1
    · rename_i hl
      split at h
      · rename_i px hd
        injection h with h1 h2
        injection h1 with h1
        subst h1
        have hkey : textureForKey s1 k = some s.nextId := by
          rw [← h2]
          exact lookupKey_append_self s.textures k s.nextId hl
        refine ⟨?_, hkey⟩
        unfold addImage
        split
        · rename_i r1 hl1
          rw [show lookupKey s1.textures k = some s.nextId from hkey] at hl1
          injection hl1 with hl1
          rw [hl1]
        · rename_i hl1
          have hkey2 : lookupKey s1.textures k = some s.nextId := hkey
          rw [hl1] at hkey2
          exact Option.noConfusion hkey2
      · exact Option.noConfusion (congrArg Prod.fst h)
  exact ⟨hmain.1, hmain.2, by rw [hmain.1]⟩

/-- Witness for C1 at a concrete decoder and key. -/
theorem addImage_repeat_identical_witness :
    addImage (fun _ => some 7) "grossini.png"
        (addImage (fun _ => some 7) "grossini.png" emptyCache).2 =
      (some 0, (addImage (fun _ => some 7) "grossini.png" emptyCache).2) ∧
    textureForKey (addImage (fun _ => some 7) "grossini.png" emptyCache).2
        "grossini.png" = some 0 ∧
    (addImage (fun _ => some 7) "grossini.png"
        (addImage (fun _ => some 7) "grossini.png" emptyCache).2).2.decodeCount =
      (addImage (fun _ => some 7) "grossini.png" emptyCache).2.decodeCount :=
  addImage_repeat_identical (fun _ => some 7) "grossini.png" emptyCache
    (addImage (fun _ => some 7) "grossini.png" emptyCache).2 0 (by decide)

/-! ### C2 — `removeUnusedTextures` evicts exactly the cache-only entries -/

/-- C2: assuming every cached entry carries at least the cache's own
reference, after `removeUnusedTextures` every remaining entry had retain
count at least 2 at the time of the call (so at least one holder other than
the cache), and every entry whose retain count was exactly 1 (the cache's
own reference only) is gone. -/
theorem removeUnusedTextures_evicts_cache_only (s : CacheState) (e : String × Nat)
    (hsane : ∀ x ∈ s.textures, 1 ≤ retainOf s x.2) :
    (e ∈ (removeUnusedTextures s).textures → e ∈ s.textures ∧ 2 ≤ retainOf s e.2) ∧
    (e ∈ s.textures → retainOf s e.2 = 1 → e ∉ (removeUnusedTextures s).textures) := by
  constructor
  · intro hmem
    have h := List.mem_filter.mp hmem
    have h2 : retainOf s e.2 ≠ 1 := by
      have := h.2
      simpa using this
    exact ⟨h.1, by have := hsane e h.1; omega⟩
  · intro _hmem h1 hcon
    have h := List.mem_filter.mp hcon
    have h2 : retainOf s e.2 ≠ 1 := by
      have := h.2
      simpa using this
    exact h2 h1

/-- Witness for C2: a cache holding one externally referenced entry (retain
count 2) and one cache-only entry (retain count 1). -/
theorem removeUnusedTextures_evicts_cache_only_witness :
    (("held.png", 0) ∈
        (removeUnusedTextures
          { emptyCache with
            textures := [("held.png", 0), ("lone.png", 1)]
            retain := [(0, 2), (1, 1)]
            nextId := 2 }).textures →
      ("held.png", 0) ∈
        ([("held.png", 0), ("lone.png", 1)] : List (String × Nat)) ∧
      2 ≤ retainOf
        { emptyCache with
          textures := [("held.png", 0), ("lone.png", 1)]
          retain := [(0, 2), (1, 1)]
          nextId := 2 } 0) ∧
    (("held.png", 0) ∈ ([("held.png", 0), ("lone.png", 1)] : List (String × Nat)) →
      retainOf
        { emptyCache with
          textures := [("held.png", 0), ("lone.png", 1)]
          retain := [(0, 2), (1, 1)]
          nextId := 2 } 0 = 1 →
      ("held.png", 0) ∉
        (removeUnusedTextures
          { emptyCache with
            textures := [("held.png", 0), ("lone.png", 1)]
            retain := [(0, 2), (1, 1)]
            nextId := 2 }).textures) :=
  removeUnusedTextures_evicts_cache_only
    { emptyCache with
      textures := [("held.png", 0), ("lone.png", 1)]
      retain := [(0, 2), (1, 1)]
      nextId := 2 }
    ("held.png", 0) (by decide)

/-! ### C3 — `addImageAsync` fast path on a cached key -/

/-- C3: when the key is already cached, `addImageAsync` invokes the callback
immediately (appends one invocation with the cached resource to the log),
enqueues nothing, and performs no decode work. -/
theorem addImageAsync_cached_fast_path (k : String) (cb : Nat) (s : CacheState)
    (r : Nat) (h : textureForKey s k = some r) :
    (addImageAsync k cb s).callbackLog = s.callbackLog ++ [(cb, some r)] ∧
    (addImageAsync k cb s).asyncStructQueue = s.asyncStructQueue ∧
    (addImageAsync k cb s).imageInfoQueue = s.imageInfoQueue ∧
    (addImageAsync k cb s).decodeCount = s.decodeCount := by
  have hs : addImageAsync k cb s =
      { s with callbackLog := s.callbackLog ++ [(cb, some r)] } := by
    unfold addImageAsync
    split
    · rename_i r1 hl1
      have hk : lookupKey s.textures k = some r := h
      rw [hk] at hl1
      injection hl1 with hl1
      rw [hl1]
    · rename_i hl1
      have hk : lookupKey s.textures k = some r := h
      rw [hl1] at hk
      exact Option.noConfusion hk
  rw [hs]
  exact ⟨rfl, rfl, rfl, rfl⟩

/-- Witness for C3 on a one-entry cache. -/
theorem addImageAsync_cached_fast_path_witness :
    (addImageAsync "held.png" 5
        { emptyCache with textures := [("held.png", 3)] }).callbackLog =
      ({ emptyCache with textures := [("held.png", 3)] } : CacheState).callbackLog ++
        [(5, some 3)] ∧
    (addImageAsync "held.png" 5
        { emptyCache with textures := [("held.png", 3)] }).asyncStructQueue =
      ({ emptyCache with textures := [("held.png", 3)] } : CacheState).asyncStructQueue ∧
    (addImageAsync "held.png" 5
        { emptyCache with textures := [("held.png", 3)] }).imageInfoQueue =
      ({ emptyCache with textures := [("held.png", 3)] } : CacheState).imageInfoQueue ∧
    (addImageAsync "held.png" 5
        { emptyCache with textures := [("held.png", 3)] }).decodeCount =
      ({ emptyCache with textures := [("held.png", 3)] } : CacheState).decodeCount :=
  addImageAsync_cached_fast_path "held.png" 5
    { emptyCache with textures := [("held.png", 3)] } 3 (by decide)

/-! ### C6 — `removeAllTextures` spares externally held resources -/

/-- C6: for a resource `rid` cached under `k` that also has an external
holder (its retain count exceeds the number of cache entries holding it),
`removeAllTextures` empties the store — every subsequent `textureForKey`
lookup returns null — yet `rid` keeps at least one reference, so it stays
valid through the external holder. -/
theorem removeAllTextures_spares_external (s : CacheState) (k : String) (rid : Nat)
    (hmem : (k, rid) ∈ s.textures)
    (hext : (s.textures.map Prod.snd).count rid + 1 ≤ retainOf s rid) :
    (∀ k2, textureForKey (removeAllTextures s) k2 = none) ∧
    1 ≤ retainOf (removeAllTextures s) rid := by
  constructor
  · intro k2
    rfl
  · have hr : retainOf (removeAllTextures s) rid =
        retainCnt s.retain rid - (s.textures.map Prod.snd).count rid := by
      rw [retainOf_eq_retainCnt]
      exact retainCnt_releaseAll (s.textures.map Prod.snd) s.retain rid
    rw [hr]
    rw [retainOf_eq_retainCnt] at hext
    omega

/-- Witness for C6: entry `("held.png", 0)` with retain count 2 (cache plus
one external holder). -/
theorem removeAllTextures_spares_external_witness :
    (∀ k2, textureForKey
        (removeAllTextures
          { emptyCache with
            textures := [("held.png", 0)]
            retain := [(0, 2)]
            nextId := 1 }) k2 = none) ∧
    1 ≤ retainOf
        (removeAllTextures
          { emptyCache with
            textures := [("held.png", 0)]
            retain := [(0, 2)]
            nextId := 1 }) 0 :=
  removeAllTextures_spares_external
    { emptyCache with
      textures := [("held.png", 0)]
      retain := [(0, 2)]
      nextId := 1 }
    "held.png" 0 (by decide) (by decide)

/-! ### C5 — shutdown never drops a pending callback -/

theorem shutdownDrainGo_fields (L : List ImageInfo) (s : CacheState) :
    (shutdownDrainGo L s).callbackLog =
      s.callbackLog ++ L.map (fun i => (i.asyncStruct.callback, (none : Option Nat))) ∧
    (shutdownDrainGo L s).threadRunning = s.threadRunning ∧
    (shutdownDrainGo L s).asyncStructQueue = s.asyncStructQueue ∧
    (shutdownDrainGo L s).imageInfoQueue = s.imageInfoQueue := by
  induction L generalizing s with
  | nil => simp [shutdownDrainGo]
  | cons i rest ih =>
    have h := ih { s with
      callbackLog := s.callbackLog ++ [(i.asyncStruct.callback, none)]
      asyncRefCount := s.asyncRefCount - 1 }
    simpa [shutdownDrainGo, List.append_assoc] using h

theorem decodeAll_map_callback (dec : String → Option Nat) (L : List AsyncStruct) :
    (decodeAll dec L).map (fun i => (i.asyncStruct.callback, (none : Option Nat))) =
      L.map (fun a => (a.callback, (none : Option Nat))) := by
  induction L with
  | nil => rfl
  | cons a rest ih => simp [decodeAll, ih]

/-- C5: invoke shutdown while `N` async requests sit in the pending-request
queue and no decoded result has been dispatched yet (`imageInfoQueue` is
empty, their callbacks not yet invoked): afterwards exactly one null
invocation has been appended to the log for each pending request, in order
— none is dropped, none fires twice — and the worker has terminated with
both queues empty. -/
theorem shutdown_invokes_every_pending_callback (dec : String → Option Nat)
    (s : CacheState) (h : s.imageInfoQueue = []) :
    (shutdown dec s).callbackLog =
      s.callbackLog ++
        s.asyncStructQueue.map (fun a => (a.callback, (none : Option Nat))) ∧
    (shutdown dec s).threadRunning = false ∧
    (shutdown dec s).asyncStructQueue = [] ∧
    (shutdown dec s).imageInfoQueue = [] := by
  unfold shutdown workerDrain
  obtain ⟨h1, h2, h3, h4⟩ := shutdownDrainGo_fields
    (({ s with needQuit := true } : CacheState).imageInfoQueue ++
      decodeAll dec ({ s with needQuit := true } : CacheState).asyncStructQueue)
    { s with
      needQuit := true
      asyncStructQueue := []
      imageInfoQueue := []
      decodeCount := s.decodeCount + s.asyncStructQueue.length }
  refine ⟨?_, ?_, ?_, ?_⟩
  · simp only [h1]
    simp [h, decodeAll_map_callback]
  · rfl
  · simp only [h3]
  · simp only [h4]

/-- Witness for C5: two pending requests, nothing decoded yet. -/
theorem shutdown_invokes_every_pending_callback_witness :
    (shutdown (fun _ => some 7)
        { emptyCache with
          asyncStructQueue := [⟨"a.png", 1⟩, ⟨"b.png", 2⟩]
          asyncRefCount := 2
          threadRunning := true }).callbackLog =
      ({ emptyCache with
          asyncStructQueue := [⟨"a.png", 1⟩, ⟨"b.png", 2⟩]
          asyncRefCount := 2
          threadRunning := true } : CacheState).callbackLog ++
        (({ emptyCache with
            asyncStructQueue := [⟨"a.png", 1⟩, ⟨"b.png", 2⟩]
            asyncRefCount := 2
            threadRunning := true } : CacheState).asyncStructQueue.map
          (fun a => (a.callback, (none : Option Nat)))) ∧
    (shutdown (fun _ => some 7)
        { emptyCache with
          asyncStructQueue := [⟨"a.png", 1⟩, ⟨"b.png", 2⟩]
          asyncRefCount := 2
          threadRunning := true }).threadRunning = false ∧
    (shutdown (fun _ => some 7)
        { emptyCache with
          asyncStructQueue := [⟨"a.png", 1⟩, ⟨"b.png", 2⟩]
          asyncRefCount := 2
          threadRunning := true }).asyncStructQueue = [] ∧
    (shutdown (fun _ => some 7)
        { emptyCache with
          asyncStructQueue := [⟨"a.png", 1⟩, ⟨"b.png", 2⟩]
          asyncRefCount := 2
          threadRunning := true }).imageInfoQueue = [] :=
  shutdown_invokes_every_pending_callback (fun _ => some 7)
    { emptyCache with
      asyncStructQueue := [⟨"a.png", 1⟩, ⟨"b.png", 2⟩]
      asyncRefCount := 2
      threadRunning := true }
    (by decide)

/-! ### C4 — two async requests for the same missing key -/

/-- Helper: the slow path of `addImageAsync` on an uncached key. -/
theorem addImageAsync_eq_of_none (k : String) (cb : Nat) (s : CacheState)
    (hk : lookupKey s.textures k = none) :
    addImageAsync k cb s =
      { s with
        asyncStructQueue := s.asyncStructQueue ++ [⟨k, cb⟩]
        asyncRefCount := s.asyncRefCount + 1
        threadRunning := true } := by
  unfold addImageAsync
  split
  · rename_i r1 hl1
    rw [hk] at hl1
    exact Option.noConfusion hl1
  · rfl

/-- The full lifetime of two `addImageAsync` calls for the same key issued
back to back before any pipeline activity: both enqueues, the worker
servicing both requests in FIFO order, then one pump on the owning thread. -/
def twoAsync (dec : String → Option Nat) (k : String) (cb1 cb2 : Nat)
    (s : CacheState) : CacheState :=
  addImageAsyncCallBack
    (loadImageStep dec (loadImageStep dec (addImageAsync k cb2 (addImageAsync k cb1 s))))

/-- C4, amended: two `addImageAsync` calls for the same uncached key, issued
before either completes, perform TWO decodes (the single worker services
both queued requests and never consults the store); at dispatch the store's
first-writer-wins rule discards the second decoded result, and both
callbacks receive the identical final resource — the one cached under the
key. -/
theorem twoAsync_two_decodes_one_resource (dec : String → Option Nat)
    (k : String) (cb1 cb2 px : Nat) (s : CacheState)
    (hk : lookupKey s.textures k = none)
    (hq : s.asyncStructQueue = [])
    (hi : s.imageInfoQueue = [])
    (hdec : dec k = some px) :
    (twoAsync dec k cb1 cb2 s).decodeCount = s.decodeCount + 2 ∧
    (twoAsync dec k cb1 cb2 s).callbackLog =
      s.callbackLog ++ [(cb1, some s.nextId), (cb2, some s.nextId)] ∧
    textureForKey (twoAsync dec k cb1 cb2 s) k = some s.nextId := by
  obtain ⟨tex, ret, nid, q, iq, nq, tr, arc, dc, log⟩ := s
  dsimp only at hk hq hi ⊢
  subst hq
  subst hi
  have hl2 : lookupKey (tex ++ [(k, nid)]) k = some nid :=
    lookupKey_append_self tex k nid hk
  simp only [twoAsync, addImageAsync, loadImageStep, addImageAsyncCallBack, pumpGo,
    dispatchOne, textureForKey, hk, hdec, hl2, List.nil_append, List.cons_append,
    List.append_assoc, List.append_nil]
  exact ⟨trivial, trivial, trivial⟩

/-- Counterexample for C4 as stated: from an empty cache, two async requests
for the key "a.png" run to completion with TWO decodes — not exactly one —
even though both callbacks do receive the same resource. -/
theorem twoAsync_not_single_decode :
    (twoAsync (fun _ => some 7) "a.png" 1 2 emptyCache).decodeCount = 2 ∧
    ¬ (twoAsync (fun _ => some 7) "a.png" 1 2 emptyCache).decodeCount = 1 ∧
    (twoAsync (fun _ => some 7) "a.png" 1 2 emptyCache).callbackLog =
      [(1, some 0), (2, some 0)] := by
  refine ⟨by decide, by decide, by decide⟩

/-- Witness for the amended C4 theorem at the same concrete input. -/
theorem twoAsync_two_decodes_one_resource_witness :
    (twoAsync (fun _ => some 7) "a.png" 1 2 emptyCache).decodeCount =
      emptyCache.decodeCount + 2 ∧
    (twoAsync (fun _ => some 7) "a.png" 1 2 emptyCache).callbackLog =
      emptyCache.callbackLog ++ [(1, some emptyCache.nextId), (2, some emptyCache.nextId)] ∧
    textureForKey (twoAsync (fun _ => some 7) "a.png" 1 2 emptyCache) "a.png" =
      some emptyCache.nextId :=
  twoAsync_two_decodes_one_resource (fun _ => some 7) "a.png" 1 2 7 emptyCache
    (by decide) (by decide) (by decide) (by decide)

/-! ### C7 — `reloadAllTextures` regenerates in place, skipping failures -/

theorem reloadOne_textures (dec : String → Option Nat) (render : String → Nat → Nat)
    (r : VTRecord) (s : VTState) : (reloadOne dec render r s).textures = s.textures := by
  unfold reloadOne
  split <;> rfl

theorem reloadGo_textures (dec : String → Option Nat) (render : String → Nat → Nat)
    (L : List VTRecord) (s : VTState) :
    (reloadGo dec render L s).textures = s.textures := by
  induction L generalizing s with
  | nil => rfl
  | cons x rest ih => rw [reloadGo, ih, reloadOne_textures]

theorem reloadOne_lookup_other (dec : String → Option Nat)
    (render : String → Nat → Nat) (x : VTRecord) (s : VTState) (t : Nat)
    (h : x.texture ≠ t) :
    lookupNat (reloadOne dec render x s).gpu t = lookupNat s.gpu t ∧
    lookupNat (reloadOne dec render x s).appliedParams t =
      lookupNat s.appliedParams t := by
  have hne : ¬ t = x.texture := fun hh => h hh.symm
  unfold reloadOne
  split
  · exact ⟨rfl, rfl⟩
  · exact ⟨by simp [lookupNat_setNat, hne], rfl⟩
  · exact ⟨by simp [lookupNat_setNat, hne], by simp [lookupNat_setNat, hne]⟩

theorem reloadGo_lookup_other (dec : String → Option Nat)
    (render : String → Nat → Nat) (L : List VTRecord) (s : VTState) (t : Nat)
    (h : ∀ x ∈ L, x.texture ≠ t) :
    lookupNat (reloadGo dec render L s).gpu t = lookupNat s.gpu t ∧
    lookupNat (reloadGo dec render L s).appliedParams t =
      lookupNat s.appliedParams t := by
  induction L generalizing s with
  | nil => exact ⟨rfl, rfl⟩
  | cons x rest ih =>
    have hx : x.texture ≠ t := h x (List.mem_cons_self x rest)
    have hrest : ∀ y ∈ rest, y.texture ≠ t := fun y hy => h y (List.mem_cons_of_mem x hy)
    obtain ⟨hg, hp⟩ := ih (reloadOne dec render x s) hrest
    obtain ⟨hg1, hp1⟩ := reloadOne_lookup_other dec render x s t hx
    exact ⟨by rw [reloadGo, hg, hg1], by rw [reloadGo, hp, hp1]⟩

theorem reloadOne_self (dec : String → Option Nat) (render : String → Nat → Nat)
    (r : VTRecord) (s : VTState) (px : Nat)
    (hre : regenerate dec render r.source = some px) :
    lookupNat (reloadOne dec render r s).gpu r.texture = some px ∧
    (∀ p, r.texParams = some p →
      lookupNat (reloadOne dec render r s).appliedParams r.texture = some p) := by
  cases hp : r.texParams with
  | none =>
    refine ⟨by simp [reloadOne, hre, hp, lookupNat_setNat], ?_⟩
    intro p hp2
    exact Option.noConfusion hp2
  | some p1 =>
    refine ⟨by simp [reloadOne, hre, hp, lookupNat_setNat], ?_⟩
    intro p hp2
    injection hp2 with hp2
    subst hp2
    simp [reloadOne, hre, hp, lookupNat_setNat]

theorem reloadGo_mem_some (dec : String → Option Nat) (render : String → Nat → Nat)
    (L : List VTRecord) (r : VTRecord) (px : Nat) (s : VTState)
    (hmem : r ∈ L) (hnd : (L.map VTRecord.texture).Nodup)
    (hre : regenerate dec render r.source = some px) :
    lookupNat (reloadGo dec render L s).gpu r.texture = some px ∧
    (∀ p, r.texParams = some p →
      lookupNat (reloadGo dec render L s).appliedParams r.texture = some p) := by
  induction L generalizing s with
  | nil => exact absurd hmem (List.not_mem_nil r)
  | cons x rest ih =>
    rcases List.mem_cons.mp hmem with hx | hx
    · subst hx
      have hrest : ∀ y ∈ rest, y.texture ≠ r.texture := by
        intro y hy hcon
        have hnot : r.texture ∉ rest.map VTRecord.texture := by
          have := hnd
          simp only [List.map_cons, List.nodup_cons] at this
          exact this.1
        exact hnot (hcon ▸ List.mem_map_of_mem VTRecord.texture hy)
      obtain ⟨hg, hp⟩ := reloadGo_lookup_other dec render rest
        (reloadOne dec render r s) r.texture hrest
      obtain ⟨hg1, hp1⟩ := reloadOne_self dec render r s px hre
      refine ⟨by rw [reloadGo, hg, hg1], ?_⟩
      intro p hp2
      rw [reloadGo, hp]
      exact hp1 p hp2
    · have hnd2 : (rest.map VTRecord.texture).Nodup := by
        have := hnd
        simp only [List.map_cons, List.nodup_cons] at this
        exact this.2
      rw [reloadGo]
      exact ih (reloadOne dec render x s) hx hnd2

theorem reloadGo_mem_none (dec : String → Option Nat) (render : String → Nat → Nat)
    (L : List VTRecord) (r : VTRecord) (s : VTState)
    (hmem : r ∈ L) (hnd : (L.map VTRecord.texture).Nodup)
    (hre : regenerate dec render r.source = none) :
    lookupNat (reloadGo dec render L s).gpu r.texture = lookupNat s.gpu r.texture := by
  induction L generalizing s with
  | nil => exact absurd hmem (List.not_mem_nil r)
  | cons x rest ih =>
    rcases List.mem_cons.mp hmem with hx | hx
    · subst hx
      have hrest : ∀ y ∈ rest, y.texture ≠ r.texture := by
        intro y hy hcon
        have hnot : r.texture ∉ rest.map VTRecord.texture := by
          have := hnd
          simp only [List.map_cons, List.nodup_cons] at this
          exact this.1
        exact hnot (hcon ▸ List.mem_map_of_mem VTRecord.texture hy)
      have hone : reloadOne dec render r s = s := by
        simp [reloadOne, hre]
      rw [reloadGo, hone]
      exact (reloadGo_lookup_other dec render rest s r.texture hrest).1
    · have hnd2 : (rest.map VTRecord.texture).Nodup := by
        have := hnd
        simp only [List.map_cons, List.nodup_cons] at this
        exact this.2
      have hxr : x.texture ≠ r.texture := by
        intro hcon
        have hnot : x.texture ∉ rest.map VTRecord.texture := by
          have := hnd
          simp only [List.map_cons, List.nodup_cons] at this
          exact this.1
        exact hnot (hcon ▸ List.mem_map_of_mem VTRecord.texture hx)
      have h1 := (reloadOne_lookup_other dec render x s r.texture hxr).1
      rw [reloadGo]
      rw [ih (reloadOne dec render x s) hx hnd2]
      exact h1

/-- C7: with no reload already in progress and one shadow record per
texture identity, `reloadAllTextures` leaves the record list — hence every
resource identity — untouched; every record whose source regenerates gets
its re-derived pixels uploaded at its own texture identity with its
last-known parameters reapplied, regardless of other records failing; a
record whose source cannot regenerate is skipped, leaving its GPU storage
as it was. -/
theorem reloadAllTextures_regenerates_in_place (dec : String → Option Nat)
    (render : String → Nat → Nat) (s : VTState) (r : VTRecord) (px : Nat)
    (hguard : s.isReloading = false)
    (hmem : r ∈ s.textures)
    (hnd : (s.textures.map VTRecord.texture).Nodup) :
    (reloadAllTextures dec render s).textures = s.textures ∧
    (regenerate dec render r.source = some px →
      lookupNat (reloadAllTextures dec render s).gpu r.texture = some px ∧
      ∀ p, r.texParams = some p →
        lookupNat (reloadAllTextures dec render s).appliedParams r.texture = some p) ∧
    (regenerate dec render r.source = none →
      lookupNat (reloadAllTextures dec render s).gpu r.texture =
        lookupNat s.gpu r.texture) := by
  have hall : reloadAllTextures dec render s =
      { reloadGo dec render s.textures { s with isReloading := true } with
        isReloading := false } := by
    unfold reloadAllTextures
    rw [hguard]
    simp
  rw [hall]
  refine ⟨?_, ?_, ?_⟩
  · simp only
    rw [reloadGo_textures]
  · intro hre
    obtain ⟨hg, hp⟩ := reloadGo_mem_some dec render s.textures r px
      { s with isReloading := true } hmem hnd hre
    exact ⟨hg, hp⟩
  · intro hre
    exact reloadGo_mem_none dec render s.textures r
      { s with isReloading := true } hmem hnd hre

/-- Witness for C7: a registry holding a record whose source file is
missing (it is skipped) and a string-sourced record that regenerates;
applied to the regenerating record. -/
theorem reloadAllTextures_regenerates_in_place_witness :
    (reloadAllTextures (fun _ => none) (fun _ _ => 9)
        { textures := [⟨0, .imageFile "gone.png" 0, none⟩, ⟨1, .string "hi" 0, some 4⟩]
          gpu := [(0, 5), (1, 6)]
          appliedParams := []
          isReloading := false }).textures =
      [⟨0, .imageFile "gone.png" 0, none⟩, ⟨1, .string "hi" 0, some 4⟩] ∧
    (regenerate (fun _ => none) (fun _ _ => 9)
        (VTRecord.mk 1 (.string "hi" 0) (some 4)).source = some 9 →
      lookupNat (reloadAllTextures (fun _ => none) (fun _ _ => 9)
          { textures := [⟨0, .imageFile "gone.png" 0, none⟩, ⟨1, .string "hi" 0, some 4⟩]
            gpu := [(0, 5), (1, 6)]
            appliedParams := []
            isReloading := false }).gpu 1 = some 9 ∧
      ∀ p, (VTRecord.mk 1 (.string "hi" 0) (some 4)).texParams = some p →
        lookupNat (reloadAllTextures (fun _ => none) (fun _ _ => 9)
            { textures := [⟨0, .imageFile "gone.png" 0, none⟩, ⟨1, .string "hi" 0, some 4⟩]
              gpu := [(0, 5), (1, 6)]
              appliedParams := []
              isReloading := false }).appliedParams 1 = some p) ∧
    (regenerate (fun _ => none) (fun _ _ => 9)
        (VTRecord.mk 1 (.string "hi" 0) (some 4)).source = none →
      lookupNat (reloadAllTextures (fun _ => none) (fun _ _ => 9)
          { textures := [⟨0, .imageFile "gone.png" 0, none⟩, ⟨1, .string "hi" 0, some 4⟩]
            gpu := [(0, 5), (1, 6)]
            appliedParams := []
            isReloading := false }).gpu 1 =
        lookupNat [(0, 5), (1, 6)] 1) :=
  reloadAllTextures_regenerates_in_place (fun _ => none) (fun _ _ => 9)
    { textures := [⟨0, .imageFile "gone.png" 0, none⟩, ⟨1, .string "hi" 0, some 4⟩]
      gpu := [(0, 5), (1, 6)]
      appliedParams := []
      isReloading := false }
    (VTRecord.mk 1 (.string "hi" 0) (some 4)) 9 rfl (by decide) (by decide)

/-! ### C9 — every tracking entry point is find-or-create; one record per
texture identity -/

theorem hasRecord_iff_mem_map (l : List VTRecord) (tt : Nat) :
    hasRecord l tt = true ↔ tt ∈ l.map VTRecord.texture := by
  unfold hasRecord
  rw [List.any_eq_true]
  constructor
  · rintro ⟨r, hr, hb⟩
    have : r.texture = tt := by simpa using hb
    exact this ▸ List.mem_map_of_mem VTRecord.texture hr
  · intro hm
    obtain ⟨r, hr, hb⟩ := List.mem_map.mp hm
    exact ⟨r, hr, by simpa using hb⟩

theorem updateRecord_map_texture (tt : Nat) (f : VTRecord → VTRecord)
    (l : List VTRecord) (hf : ∀ r, (f r).texture = r.texture) :
    (updateRecord tt f l).map VTRecord.texture = l.map VTRecord.texture := by
  induction l with
  | nil => rfl
  | cons x rest ih =>
    by_cases hx : x.texture = tt
    · simp [updateRecord, hx, hf] at ih ⊢
      exact ih
    · simp [updateRecord, hx, hf] at ih ⊢
      exact ih

theorem trackOp_find_or_create (tt : Nat) (f : VTRecord → VTRecord)
    (l : List VTRecord) (hf : ∀ r, (f r).texture = r.texture)
    (hnd : (l.map VTRecord.texture).Nodup) :
    hasRecord (trackOp tt f l) tt = true ∧
    ((trackOp tt f l).map VTRecord.texture).Nodup := by
  unfold trackOp findVolotileTexture
  by_cases h : hasRecord l tt
  · rw [if_pos h]
    constructor
    · rw [hasRecord_iff_mem_map, updateRecord_map_texture tt f l hf]
      exact (hasRecord_iff_mem_map l tt).mp h
    · rw [updateRecord_map_texture tt f l hf]
      exact hnd
  · rw [if_neg h]
    have hmap : (updateRecord tt f (l ++ [newVTRecord tt])).map VTRecord.texture =
        l.map VTRecord.texture ++ [tt] := by
      rw [updateRecord_map_texture tt f (l ++ [newVTRecord tt]) hf]
      simp [newVTRecord]
    constructor
    · rw [hasRecord_iff_mem_map, hmap]
      simp
    · rw [hmap]
      have hnot : tt ∉ l.map VTRecord.texture := by
        intro hm
        exact h ((hasRecord_iff_mem_map l tt).mpr hm)
      simp [List.nodup_append, hnot, hnd]

/-- C9: each shadow-registry tracking operation — `addImageTexture`,
`addStringTexture`, `addDataTexture`, `addImage`, `setTexParameters` — on a
registry with one record per texture identity yields a registry that holds
a record for the given texture (created when absent rather than failing)
and still holds at most one record per texture identity. -/
theorem shadow_tracking_find_or_create (tt : Nat) (fileName text : String)
    (fmt font data pixelFormat width height img p : Nat) (l : List VTRecord)
    (hnd : (l.map VTRecord.texture).Nodup) :
    (hasRecord (addImageTexture tt fileName fmt l) tt = true ∧
      ((addImageTexture tt fileName fmt l).map VTRecord.texture).Nodup) ∧
    (hasRecord (addStringTexture tt text font l) tt = true ∧
      ((addStringTexture tt text font l).map VTRecord.texture).Nodup) ∧
    (hasRecord (addDataTexture tt data pixelFormat width height l) tt = true ∧
      ((addDataTexture tt data pixelFormat width height l).map VTRecord.texture).Nodup) ∧
    (hasRecord (addImageVT tt img l) tt = true ∧
      ((addImageVT tt img l).map VTRecord.texture).Nodup) ∧
    (hasRecord (setTexParametersVT tt p l) tt = true ∧
      ((setTexParametersVT tt p l).map VTRecord.texture).Nodup) :=
  ⟨trackOp_find_or_create tt _ l (fun _ => rfl) hnd,
   trackOp_find_or_create tt _ l (fun _ => rfl) hnd,
   trackOp_find_or_create tt _ l (fun _ => rfl) hnd,
   trackOp_find_or_create tt _ l (fun _ => rfl) hnd,
   trackOp_find_or_create tt _ l (fun _ => rfl) hnd⟩

/-- Witness for C9 on a registry that does not yet track texture 2. -/
theorem shadow_tracking_find_or_create_witness :
    (hasRecord (addImageTexture 2 "a.png" 0 [⟨0, .invalid, none⟩]) 2 = true ∧
      ((addImageTexture 2 "a.png" 0 [⟨0, .invalid, none⟩]).map VTRecord.texture).Nodup) ∧
    (hasRecord (addStringTexture 2 "hi" 1 [⟨0, .invalid, none⟩]) 2 = true ∧
      ((addStringTexture 2 "hi" 1 [⟨0, .invalid, none⟩]).map VTRecord.texture).Nodup) ∧
    (hasRecord (addDataTexture 2 3 4 5 6 [⟨0, .invalid, none⟩]) 2 = true ∧
      ((addDataTexture 2 3 4 5 6 [⟨0, .invalid, none⟩]).map VTRecord.texture).Nodup) ∧
    (hasRecord (addImageVT 2 7 [⟨0, .invalid, none⟩]) 2 = true ∧
      ((addImageVT 2 7 [⟨0, .invalid, none⟩]).map VTRecord.texture).Nodup) ∧
    (hasRecord (setTexParametersVT 2 8 [⟨0, .invalid, none⟩]) 2 = true ∧
      ((setTexParametersVT 2 8 [⟨0, .invalid, none⟩]).map VTRecord.texture).Nodup) :=
  shadow_tracking_find_or_create 2 "a.png" "hi" 0 1 3 4 5 6 7 8
    [⟨0, .invalid, none⟩] (by decide)

/-! ### C10 — singleton lifecycle of `getInstance` / `destroyInstance` -/

/-- C10: while a live instance `i` is stored (with its identity below the
fresh-identity counter), every `getInstance` call returns exactly `i` and
repeated calls agree; `destroyInstance` empties the slot; a `getInstance`
after `destroyInstance` returns an instance that is stored, carries an
empty cache, and has a fresh identity distinct from `i`. -/
theorem singleton_lifecycle (g : SingletonState) (i : Nat × CacheState)
    (hlive : g.shared = some i) (hfresh : i.1 < g.nextInst) :
    (getInstance g).1 = i ∧
    (getInstance (getInstance g).2).1 = (getInstance g).1 ∧
    (destroyInstance g).shared = none ∧
    (getInstance (destroyInstance g)).1.2 = emptyCache ∧
    (getInstance (destroyInstance g)).1.1 ≠ i.1 ∧
    (getInstance (destroyInstance g)).2.shared = some (getInstance (destroyInstance g)).1 := by
  have h1 : getInstance g = (i, g) := by
    unfold getInstance
    rw [hlive]
  have h2 : getInstance (destroyInstance g) =
      ((g.nextInst, emptyCache),
        { shared := some (g.nextInst, emptyCache), nextInst := g.nextInst + 1 }) := by
    unfold getInstance destroyInstance
    rfl
  refine ⟨by rw [h1], by rw [h1]; exact congrArg Prod.fst h1, rfl, by rw [h2],
    by rw [h2]; exact fun hc => absurd hc.symm (Nat.ne_of_lt hfresh), by rw [h2]⟩

/-- Witness for C10 on a live singleton of identity 0. -/
theorem singleton_lifecycle_witness :
    (getInstance { shared := some (0, emptyCache), nextInst := 1 }).1 = (0, emptyCache) ∧
    (getInstance (getInstance { shared := some (0, emptyCache), nextInst := 1 }).2).1 =
      (getInstance { shared := some (0, emptyCache), nextInst := 1 }).1 ∧
    (destroyInstance { shared := some (0, emptyCache), nextInst := 1 }).shared = none ∧
    (getInstance (destroyInstance { shared := some (0, emptyCache), nextInst := 1 })).1.2 =
      emptyCache ∧
    (getInstance (destroyInstance { shared := some (0, emptyCache), nextInst := 1 })).1.1 ≠
      (0, emptyCache).1 ∧
    (getInstance (destroyInstance { shared := some (0, emptyCache), nextInst := 1 })).2.shared =
      some (getInstance (destroyInstance { shared := some (0, emptyCache), nextInst := 1 })).1 :=
  singleton_lifecycle { shared := some (0, emptyCache), nextInst := 1 } (0, emptyCache)
    rfl (by decide)

/-! ### C8 — deprecated static entry points are exact aliases -/

/-- C8: from every singleton state, the deprecated `sharedTextureCache`
returns exactly what `getInstance` returns (same instance, same resulting
state), and `purgeSharedTextureCache` has exactly the effect of
`destroyInstance` — just as their inline bodies in the header delegate. -/
theorem deprecated_static_aliases (g : SingletonState) :
    sharedTextureCache g = getInstance g ∧
    purgeSharedTextureCache g = destroyInstance g :=
  ⟨rfl, rfl⟩

end TextureCacheSpec
